import Mathlib

/-!
Shallow embedding of the video-generation orchestration core of the
`youtubenews` backend: `backend/services/ovi_service.py` (class
`OviService`) and `backend/services/gemini_fallback.py` (class
`GeminiFallback`).

External effects (package import, file system, subprocess, HTTP) are
modelled as oracle fields of an environment record.  A Python exception is
modelled with `Except`; a `try/except` block is embedded by routing every
raising branch to the value produced by its handler.
-/

/-- The dict returned by the generation services:
`{"video_base64": ..., "video_url": ..., "provider": ...}`.
A whole-call failure (Python `None`) is `Option.none` at the use sites. -/
structure VideoResult where
  video_base64 : Option String
  video_url : Option String
  provider : String
deriving DecidableEq

/-- One invocation of the local Ovi backend.  This instrumentation lets us
state that an unavailable service attempts no work and that the sequential
batch path performs one `generate_video` call per prompt, in input order. -/
inductive OviCall where
  | pkgGen (prompt : String)
  | cli (prompt : String)
deriving DecidableEq

/-- Oracle environment for `OviService`.
`available` is `self.available`, `num_gpus` is `self.num_gpus`;
`pkgImport` says whether `from ovi import OviGenerator` succeeds;
`pkgGenerate p` is the outcome of `generator.generate(prompt=p, ...)`
(`Except.error` models a raised exception, `Except.ok` the returned video
path); `readFile` models `open(path, "rb").read()`; `b64encode` models
`base64.b64encode(...).decode("utf-8")`; `cliRun p` is the outcome of the
`python -m ovi.generate` subprocess for prompt `p` (`Except.ok` gives the
return code and decoded stdout); `pathExists` models `os.path.exists`. -/
structure OviEnv where
  available : Bool
  pkgImport : Bool
  pkgGenerate : String → Except Unit String
  readFile : String → Except Unit String
  b64encode : String → String
  cliRun : String → Except Unit (Int × String)
  pathExists : String → Bool
  num_gpus : Nat

/-- `OviService.generate_video` (ovi_service.py lines 76-176), paired with
the list of backend invocations it performs.  Every raising branch inside
the outer `try` is routed to the outer `except Exception`, which returns
`None`; `except ImportError` on the package import routes to the CLI
branch. -/
def ovi_generate_video (env : OviEnv) (prompt : String) :
    Option VideoResult × List OviCall :=
  if env.available = false then (none, [])
  else if env.pkgImport then
    -- Option 1: direct Python import
    match env.pkgGenerate prompt with
    | Except.error _ => (none, [OviCall.pkgGen prompt])
    | Except.ok video_path =>
      match env.readFile video_path with
      | Except.error _ => (none, [OviCall.pkgGen prompt])
      | Except.ok video_data =>
        (some { video_base64 := some (env.b64encode video_data),
                video_url := none, provider := "ovi" },
         [OviCall.pkgGen prompt])
  else
    -- except ImportError: Option 2, CLI subprocess
    match env.cliRun prompt with
    | Except.error _ => (none, [OviCall.cli prompt])
    | Except.ok (returncode, stdout) =>
      if returncode ≠ 0 then (none, [OviCall.cli prompt])
      else
        let output_path := stdout.trim
        if env.pathExists output_path then
          match env.readFile output_path with
          | Except.error _ => (none, [OviCall.cli prompt])
          | Except.ok video_data =>
            (some { video_base64 := some (env.b64encode video_data),
                    video_url := none, provider := "ovi" },
             [OviCall.cli prompt])
        else (none, [OviCall.cli prompt])

/-- The sequential branch of `generate_videos_batch` (lines 234-242): one
`generate_video` call after another, results collected in input order.  The
same loop is the body of each per-GPU task (lines 264-272).  The second
component is the concatenation of the per-call backend traces, in call
order. -/
def ovi_generate_batch_seq (env : OviEnv) :
    List String → List (Option VideoResult) × List OviCall
  | [] => ([], [])
  | p :: ps =>
    let r := ovi_generate_video env p
    let rest := ovi_generate_batch_seq env ps
    (r.1 :: rest.1, r.2 ++ rest.2)

/-- Per-GPU item counts of lines 198-206:
`count = tasks_per_gpu + (1 if gpu_id < remaining else 0)` with
`tasks_per_gpu = len(prompts) // num_gpus` and
`remaining = len(prompts) % num_gpus`. -/
def gpuCounts (N U : Nat) : List Nat :=
  (List.range U).map (fun gpu_id => N / U + if gpu_id < N % U then 1 else 0)

/-- Consume a list by taking the given counts in turn.  This embeds the
`prompt_idx` loop of lines 207-211, which appends to `gpu_prompts` up to
`count` of the not-yet-assigned prompts (`List.take` takes at most what
remains, exactly like the `if prompt_idx < len(prompts)` guard). -/
def splitByCounts : List Nat → List String → List (List String)
  | [], _ => []
  | c :: cs, l => l.take c :: splitByCounts cs (l.drop c)

/-- The contiguous per-GPU groups built by the loop of lines 204-211. -/
def gpuGroups (prompts : List String) (U : Nat) : List (List String) :=
  splitByCounts (gpuCounts prompts.length U) prompts

/-- The task list of lines 204-218: group `i` is paired with GPU id `i`;
a task is spawned only for a non-empty group (`if gpu_prompts:`). -/
def gpuTasks (prompts : List String) (U : Nat) : List (Nat × List String) :=
  ((List.range U).zip (gpuGroups prompts U)).filter (fun gi => !gi.2.isEmpty)

/-- The `flat_results` loop of lines 224-230: a slot holding an exception
contributes `[None] * len(prompts)` (the full batch length `N`), a normal
task result list is appended as is. -/
def flattenResults (N : Nat) :
    List (Except Unit (List (Option VideoResult))) → List (Option VideoResult) →
    List (Option VideoResult)
  | [], acc => acc
  | Except.error _ :: rs, acc => flattenResults N rs (acc ++ List.replicate N none)
  | Except.ok xs :: rs, acc => flattenResults N rs (acc ++ xs)

/-- `OviService.generate_videos_batch` (lines 178-246).  `taskFault g`
says whether GPU `g`'s task as a whole fails, i.e. whether its
`asyncio.gather(..., return_exceptions=True)` slot holds an exception
(e.g. the unit became unavailable mid-batch); such a slot is modelled as
`Except.error`.  A non-faulting task returns the results of its group run
sequentially (`_generate_on_gpu` lines 264-272). -/
def generate_videos_batch (env : OviEnv) (taskFault : Nat → Bool)
    (prompts : List String) : List (Option VideoResult) :=
  if env.available = false then List.replicate prompts.length none
  else if 1 < env.num_gpus then
    let gathered := (gpuTasks prompts env.num_gpus).map (fun gi =>
      if taskFault gi.1 then Except.error ()
      else Except.ok (ovi_generate_batch_seq env gi.2).1)
    (flattenResults prompts.length gathered []).take prompts.length
  else
    (ovi_generate_batch_seq env prompts).1

/-! ### GPU targeting context (`_generate_on_gpu`, ovi_service.py lines 248-279)

`_generate_on_gpu` steers its work to one GPU by mutating the process-wide
`os.environ["CUDA_VISIBLE_DEVICES"]`.  We model each task's interactions
with that variable as atomic steps, so that both a single run (frame
property of the `try/finally`) and an asyncio interleaving of several
concurrent tasks can be examined. -/

/-- Atomic interactions of one `_generate_on_gpu(gpu_id = g, ...)` task
with `os.environ["CUDA_VISIBLE_DEVICES"]`:
`capture g` is `original_env = os.environ.get("CUDA_VISIBLE_DEVICES")`;
`set g` is `os.environ["CUDA_VISIBLE_DEVICES"] = str(gpu_id)`;
`observe g` is the moment GPU `g`'s awaited work reads the variable
(the backend inherits it when the generation actually runs);
`restore g` is the `finally` block: write the captured value back if it was
present, otherwise delete the variable (make it absent). -/
inductive GpuStep where
  | capture (g : Nat)
  | set (g : Nat)
  | observe (g : Nat)
  | restore (g : Nat)
deriving DecidableEq

/-- Scheduler state: the single shared variable's current value (`none` =
absent), each task's captured `original_env`, and the value each task's
work observed. -/
structure SchedState where
  shared : Option String
  captured : Nat → Option String
  observed : Nat → Option String

def execStep (st : SchedState) : GpuStep → SchedState
  | GpuStep.capture g =>
    { st with captured := fun x => if x = g then st.shared else st.captured x }
  | GpuStep.set g => { st with shared := some (toString g) }
  | GpuStep.observe g =>
    { st with observed := fun x => if x = g then st.shared else st.observed x }
  | GpuStep.restore g => { st with shared := st.captured g }

def execSteps (steps : List GpuStep) (st : SchedState) : SchedState :=
  steps.foldl execStep st

/-- The full step sequence of one `_generate_on_gpu(gpu_id = g, ...)` task
for one generation: capture the original value, set the GPU id, run the
work (which observes the variable), then the `finally` restore. -/
def unitProgram (g : Nat) : List GpuStep :=
  [GpuStep.capture g, GpuStep.set g, GpuStep.observe g, GpuStep.restore g]

/-- `IsMerge a b c`: `c` is an interleaving of `a` and `b` that keeps each
task's own step order — exactly the executions the asyncio event loop can
produce for two concurrently scheduled unit tasks. -/
inductive IsMerge : List GpuStep → List GpuStep → List GpuStep → Prop
  | nil : IsMerge [] [] []
  | left {x xs ys zs} : IsMerge xs ys zs → IsMerge (x :: xs) ys (x :: zs)
  | right {y xs ys zs} : IsMerge xs ys zs → IsMerge xs (y :: ys) (y :: zs)

/-- Initial state: `CUDA_VISIBLE_DEVICES` absent, nothing captured or
observed yet. -/
def initState : SchedState :=
  { shared := none, captured := fun _ => none, observed := fun _ => none }

/-! ### Polling engine (`GeminiFallback._poll_for_video_http`,
gemini_fallback.py lines 100-144) -/

/-- What one status query of the remote operation can come back as:
`netError` models an exception raised during `asyncio.sleep`, the HTTP GET
or the JSON parse (caught by the per-iteration `except Exception`);
`httpError` models `not response.is_success`;
`ok done generatedVideos` models a parsed body with its `done` flag and
its `response.generatedVideos` list, each element carrying the
`video.uri` field when present and non-empty. -/
inductive PollResponse where
  | netError
  | httpError
  | ok (done : Bool) (generatedVideos : List (Option String))
deriving DecidableEq

/-- The artifact extraction of lines 122-133:
`generated_videos[0].get("video", {}).get("uri")` when the list is
non-empty; a missing list, a missing/empty uri and an extraction exception
all end in `return None`. -/
def extractUri : List (Option String) → Option String
  | [] => none
  | v :: _ => v

/-- The `while retries < max_retries` loop of lines 104-144, with
`fuel = max_retries - retries` as the structural recursion measure; the
`rsp` oracle gives the outcome of the status query performed while the
counter equals `retries`.  Every non-terminating branch executes
`retries += 1`; exhausting the budget falls out of the loop and returns
`None` (timeout).  On `done`, a successfully extracted uri is returned as
`f"{video_uri}&key={self.api_key}"`, and an extraction failure returns
`None` without further retries. -/
def poll_aux (key : String) (rsp : Nat → PollResponse) :
    Nat → Nat → Option String
  | _, 0 => none
  | retries, fuel + 1 =>
    match rsp retries with
    | PollResponse.netError => poll_aux key rsp (retries + 1) fuel
    | PollResponse.httpError => poll_aux key rsp (retries + 1) fuel
    | PollResponse.ok false _ => poll_aux key rsp (retries + 1) fuel
    | PollResponse.ok true generatedVideos =>
      match extractUri generatedVideos with
      | some uri => some (uri ++ "&key=" ++ key)
      | none => none

/-- `GeminiFallback._poll_for_video_http(operation_name, max_retries)`:
the loop starts with `retries = 0`. -/
def poll_for_video_http (key : String) (rsp : Nat → PollResponse)
    (max_retries : Nat) : Option String :=
  poll_aux key rsp 0 max_retries

/-- Externally visible events of the polling loop: the fixed
`await asyncio.sleep(5)` and the status query (`client.get`). -/
inductive PollEvent where
  | wait
  | query
deriving DecidableEq

/-- One loop iteration's event block: a fixed-interval wait, then exactly
one status query. -/
def wqBlock : List PollEvent := [PollEvent.wait, PollEvent.query]

/-- Event trace of the polling loop: each iteration sleeps then queries;
a `done` report ends the loop, every other outcome retries. -/
def poll_trace_aux (rsp : Nat → PollResponse) : Nat → Nat → List PollEvent
  | _, 0 => []
  | retries, fuel + 1 =>
    PollEvent.wait :: PollEvent.query ::
      (match rsp retries with
       | PollResponse.ok true _ => []
       | _ => poll_trace_aux rsp (retries + 1) fuel)

/-- A query outcome that terminates the loop (the remote reported
`done`). -/
def pollTerminal : PollResponse → Bool
  | PollResponse.ok true _ => true
  | _ => false

/-! ### Gemini fallback provider (`GeminiFallback.generate_video`,
gemini_fallback.py lines 31-98) -/

/-- One job submission to the remote service (the `client.post` of
line 67); instrumentation to state that an unavailable provider attempts
no job. -/
inductive GeminiCall where
  | submit (prompt : String)
deriving DecidableEq

/-- Oracle environment for `GeminiFallback`.  `api_key` is
`os.getenv("GEMINI_API_KEY")` (`self.available = api_key is not None`);
`postResponse p` is the outcome of the submission POST for prompt `p`
(`Except.error` = raised exception; `Except.ok (is_success, name)` =
`response.is_success` and the optional `operation_data.get("name")`);
`pollResponses` is the status-query oracle handed to the polling loop. -/
structure GeminiEnv where
  api_key : Option String
  postResponse : String → Except Unit (Bool × Option String)
  pollResponses : Nat → PollResponse

/-- `GeminiFallback.generate_video` (lines 31-98), paired with the list of
job submissions it performs.  All raising branches are routed to the outer
`except Exception`, which returns `None`.  The poll budget is the Python
default `max_retries = 30`, since `_poll_for_video_http` is called without
an explicit budget (line 86). -/
def gemini_generate_video (genv : GeminiEnv) (prompt : String) :
    Option VideoResult × List GeminiCall :=
  match genv.api_key with
  | none => (none, [])
  | some key =>
    match genv.postResponse prompt with
    | Except.error _ => (none, [GeminiCall.submit prompt])
    | Except.ok (is_success, operation_name) =>
      if is_success = false then (none, [GeminiCall.submit prompt])
      else
        match operation_name with
        | none => (none, [GeminiCall.submit prompt])
        | some _ =>
          match poll_for_video_http key genv.pollResponses 30 with
          | some video_url =>
            (some { video_base64 := none, video_url := some video_url,
                    provider := "gemini" },
             [GeminiCall.submit prompt])
          | none => (none, [GeminiCall.submit prompt])

/-! ### Supporting lemmas: sequential path -/

theorem ovi_generate_batch_seq_fst (env : OviEnv) (l : List String) :
    (ovi_generate_batch_seq env l).1
      = l.map (fun p => (ovi_generate_video env p).1) := by
  induction l with
  | nil => rfl
  | cons p ps ih => simp [ovi_generate_batch_seq, ih]

theorem ovi_generate_batch_seq_snd (env : OviEnv) (l : List String) :
    (ovi_generate_batch_seq env l).2
      = (l.map (fun p => (ovi_generate_video env p).2)).flatten := by
  induction l with
  | nil => rfl
  | cons p ps ih => simp [ovi_generate_batch_seq, ih]

theorem ovi_generate_batch_seq_length (env : OviEnv) (l : List String) :
    (ovi_generate_batch_seq env l).1.length = l.length := by
  rw [ovi_generate_batch_seq_fst]; exact l.length_map _

/-! ### Supporting lemmas: partitioning -/

theorem sum_range_div_ind (a r : Nat) :
    ∀ U, ((List.range U).map (fun i => a + if i < r then 1 else 0)).sum
      = U * a + min r U := by
  intro U
  induction U with
  | zero => simp
  | succ n ih =>
    rw [List.range_succ, List.map_append, List.sum_append, ih, Nat.succ_mul]
    simp only [List.map_cons, List.map_nil, List.sum_cons, List.sum_nil]
    rcases Nat.lt_or_ge n r with h | h
    · rw [if_pos h, Nat.min_eq_right (Nat.le_of_lt h),
        Nat.min_eq_right (Nat.succ_le_of_lt h), Nat.succ_eq_add_one]
      ring
    · rw [if_neg (Nat.not_lt.mpr h), Nat.min_eq_left h,
        Nat.min_eq_left (Nat.le_succ_of_le h)]
      ring

theorem gpuCounts_length (N U : Nat) : (gpuCounts N U).length = U := by
  simp [gpuCounts]

theorem gpuCounts_sum (N U : Nat) (hU : 0 < U) : (gpuCounts N U).sum = N := by
  unfold gpuCounts
  rw [sum_range_div_ind, Nat.min_eq_left (Nat.le_of_lt (Nat.mod_lt _ hU))]
  exact Nat.div_add_mod N U

theorem splitByCounts_join (cs : List Nat) :
    ∀ l : List String, (splitByCounts cs l).flatten = l.take cs.sum := by
  induction cs with
  | nil => intro l; simp [splitByCounts]
  | cons c cs ih =>
    intro l
    rw [List.sum_cons, List.take_add]
    simp [splitByCounts, ih]

theorem splitByCounts_length (cs : List Nat) :
    ∀ l : List String, (splitByCounts cs l).length = cs.length := by
  induction cs with
  | nil => intro l; rfl
  | cons c cs ih => intro l; simp [splitByCounts, ih]

theorem splitByCounts_lengths (cs : List Nat) :
    ∀ l : List String, cs.sum ≤ l.length →
      (splitByCounts cs l).map List.length = cs := by
  induction cs with
  | nil => intro l _; rfl
  | cons c cs ih =>
    intro l h
    simp only [List.sum_cons] at h
    have hc : c ≤ l.length := le_trans (Nat.le_add_right c cs.sum) h
    simp only [splitByCounts, List.map_cons, List.length_take,
      Nat.min_eq_left hc]
    rw [ih (l.drop c) (by simp [List.length_drop]; omega)]

theorem mem_splitByCounts_length_le (cs : List Nat) :
    ∀ l g, g ∈ splitByCounts cs l → g.length ≤ l.length := by
  induction cs with
  | nil => intro l g h; simp [splitByCounts] at h
  | cons c cs ih =>
    intro l g h
    simp only [splitByCounts, List.mem_cons] at h
    rcases h with h | h
    · subst h; simp [List.length_take]
    · exact le_trans (ih (l.drop c) g h) (by simp [List.length_drop])

theorem gpuGroups_join (prompts : List String) (U : Nat) (hU : 0 < U) :
    (gpuGroups prompts U).flatten = prompts := by
  rw [gpuGroups, splitByCounts_join, gpuCounts_sum _ _ hU, List.take_length]

theorem gpuGroups_length (prompts : List String) (U : Nat) :
    (gpuGroups prompts U).length = U := by
  rw [gpuGroups, splitByCounts_length, gpuCounts_length]

theorem gpuGroups_lengths (prompts : List String) (U : Nat) (hU : 0 < U) :
    (gpuGroups prompts U).map List.length = gpuCounts prompts.length U := by
  rw [gpuGroups, splitByCounts_lengths]
  rw [gpuCounts_sum _ _ hU]

/-! ### Supporting lemmas: gather/flatten -/

theorem sum_map_le_sum_map {α : Type} (f g : α → Nat) :
    ∀ l : List α, (∀ x ∈ l, f x ≤ g x) → (l.map f).sum ≤ (l.map g).sum := by
  intro l
  induction l with
  | nil => intro _; simp
  | cons x l ih =>
    intro h
    simp only [List.map_cons, List.sum_cons]
    exact Nat.add_le_add (h x (List.mem_cons_self x l))
      (ih (fun y hy => h y (List.mem_cons_of_mem x hy)))

/-- Per-slot contribution of the `flat_results` loop: a faulted slot adds
`N` entries, a normal slot adds its own result list. -/
def slotLen (N : Nat) : Except Unit (List (Option VideoResult)) → Nat
  | Except.error _ => N
  | Except.ok xs => xs.length

theorem flattenResults_length (N : Nat) :
    ∀ (rs : List (Except Unit (List (Option VideoResult))))
      (acc : List (Option VideoResult)),
      (flattenResults N rs acc).length
        = acc.length + (rs.map (slotLen N)).sum := by
  intro rs
  induction rs with
  | nil => intro acc; simp [flattenResults]
  | cons r rs ih =>
    intro acc
    cases r with
    | error e => simp [flattenResults, ih, slotLen]; omega
    | ok xs => simp [flattenResults, ih, slotLen]; omega

theorem flattenResults_all_ok (N : Nat)
    (f : Nat × List String → List (Option VideoResult)) :
    ∀ (ts : List (Nat × List String)) (acc : List (Option VideoResult)),
      flattenResults N (ts.map (fun t => Except.ok (f t))) acc
        = acc ++ (ts.map f).flatten := by
  intro ts
  induction ts with
  | nil => intro acc; simp [flattenResults]
  | cons t ts ih => intro acc; simp [flattenResults, ih]

theorem filter_nonempty_sum (l : List (Nat × List String)) :
    ((l.filter (fun gi => !gi.2.isEmpty)).map (fun gi => gi.2.length)).sum
      = (l.map (fun gi => gi.2.length)).sum := by
  induction l with
  | nil => rfl
  | cons x l ih =>
    cases h : x.2.isEmpty with
    | true =>
      have hx : x.2.length = 0 := by
        rw [List.isEmpty_iff] at h
        simp [h]
      simp [List.filter_cons, h, ih, hx]
    | false => simp [List.filter_cons, h, ih]

theorem filter_nonempty_flatten (l : List (Nat × List String))
    (f : List String → List (Option VideoResult)) (hf : f [] = []) :
    ((l.filter (fun gi => !gi.2.isEmpty)).map (fun gi => f gi.2)).flatten
      = (l.map (fun gi => f gi.2)).flatten := by
  induction l with
  | nil => rfl
  | cons x l ih =>
    cases h : x.2.isEmpty with
    | true =>
      have hx : x.2 = [] := List.isEmpty_iff.mp h
      simp [List.filter_cons, h, ih, hx, hf]
    | false => simp [List.filter_cons, h, ih]

theorem map_snd_zip_range (G : List (List String)) :
    ((List.range G.length).zip G).map Prod.snd = G := by
  apply List.map_snd_zip
  simp

theorem mem_gpuTasks_length_le (prompts : List String) (U : Nat) :
    ∀ gi ∈ gpuTasks prompts U, gi.2.length ≤ prompts.length := by
  intro gi hgi
  have hz : gi ∈ (List.range U).zip (gpuGroups prompts U) :=
    List.mem_of_mem_filter hgi
  have hm : gi.2 ∈ gpuGroups prompts U := (List.of_mem_zip hz).2
  exact mem_splitByCounts_length_le _ _ _ hm

theorem gpuTasks_sum_lengths (prompts : List String) (U : Nat) (hU : 0 < U) :
    ((gpuTasks prompts U).map (fun gi => gi.2.length)).sum = prompts.length := by
  rw [gpuTasks, filter_nonempty_sum]
  have h1 : ((List.range U).zip (gpuGroups prompts U)).map (fun gi => gi.2.length)
      = (((List.range U).zip (gpuGroups prompts U)).map Prod.snd).map List.length := by
    rw [List.map_map]; rfl
  rw [h1]
  have h2 : (List.range U).zip (gpuGroups prompts U)
      = (List.range (gpuGroups prompts U).length).zip (gpuGroups prompts U) := by
    rw [gpuGroups_length]
  rw [h2, map_snd_zip_range, gpuGroups_lengths _ _ hU, gpuCounts_sum _ _ hU]

/-! ### Claim theorems for the batch interface -/

/-- Claim C1: for every list of N prompts, `generate_videos_batch` returns
a list of exactly N results — whether the service is unavailable, the
multi-GPU or the sequential path is taken, and whichever unit tasks
fault. -/
theorem C1_batch_length (env : OviEnv) (taskFault : Nat → Bool)
    (prompts : List String) :
    (generate_videos_batch env taskFault prompts).length = prompts.length := by
  unfold generate_videos_batch
  cases hav : env.available with
  | false => simp
  | true =>
    rw [if_neg (by simp : ¬(true = false))]
    by_cases hg : 1 < env.num_gpus
    · have hU : 0 < env.num_gpus := by omega
      rw [if_pos hg, List.length_take]
      rw [flattenResults_length, List.map_map]
      have hle : ((gpuTasks prompts env.num_gpus).map (fun gi => gi.2.length)).sum
          ≤ ((gpuTasks prompts env.num_gpus).map
              (slotLen prompts.length ∘ fun gi =>
                if taskFault gi.1 then Except.error ()
                else Except.ok (ovi_generate_batch_seq env gi.2).1)).sum := by
        apply sum_map_le_sum_map
        intro gi hgi
        simp only [Function.comp_apply]
        by_cases hf : taskFault gi.1 = true
        · rw [if_pos hf]
          simpa [slotLen] using mem_gpuTasks_length_le prompts env.num_gpus gi hgi
        · rw [if_neg hf]
          simp [slotLen, ovi_generate_batch_seq_length]
      rw [gpuTasks_sum_lengths _ _ hU] at hle
      simp only [List.length_nil, Nat.zero_add]
      omega
    · rw [if_neg hg]
      exact ovi_generate_batch_seq_length env prompts

theorem zip_getD_pair :
    ∀ (l₁ : List Nat) (l₂ : List (List String)) (i : Nat),
      i < l₁.length → i < l₂.length →
      (l₁.zip l₂).getD i (0, []) = (l₁.getD i 0, l₂.getD i []) := by
  intro l₁
  induction l₁ with
  | nil => intro l₂ i h1 _; simp at h1
  | cons x l₁ ih =>
    intro l₂ i h1 h2
    cases l₂ with
    | nil => simp at h2
    | cons y l₂ =>
      cases i with
      | zero => rfl
      | succ n =>
        simp only [List.zip_cons_cons, List.getD_cons_succ]
        exact ih l₂ n (by simpa using h1) (by simpa using h2)

theorem range_getD (U i : Nat) (h : i < U) : (List.range U).getD i 0 = i := by
  rw [List.getD_eq_getElem _ _ (by simpa using h)]
  simp

/-- The whole-batch result when no unit task faults: the gathered slots
are the per-group sequential runs, and flattening them in unit order gives
the per-prompt results in original request order. -/
theorem batch_no_fault (env : OviEnv) (taskFault : Nat → Bool)
    (prompts : List String) (hav : env.available = true)
    (hg : 1 < env.num_gpus) (hf : ∀ g, taskFault g = false) :
    generate_videos_batch env taskFault prompts
      = prompts.map (fun p => (ovi_generate_video env p).1) := by
  have hU : 0 < env.num_gpus := by omega
  have hbatch : generate_videos_batch env taskFault prompts
      = (flattenResults prompts.length
          ((gpuTasks prompts env.num_gpus).map (fun gi =>
            if taskFault gi.1 then Except.error ()
            else Except.ok (ovi_generate_batch_seq env gi.2).1)) []).take
          prompts.length := by
    unfold generate_videos_batch
    rw [hav, if_neg (by simp : ¬(true = false)), if_pos hg]
  have hmap : (gpuTasks prompts env.num_gpus).map (fun gi =>
      if taskFault gi.1 then Except.error ()
      else Except.ok (ovi_generate_batch_seq env gi.2).1)
      = (gpuTasks prompts env.num_gpus).map (fun gi =>
          Except.ok ((fun t : Nat × List String =>
            (ovi_generate_batch_seq env t.2).1) gi)) := by
    apply List.map_congr_left
    intro gi _
    rw [hf gi.1]
    simp
  rw [hbatch, hmap,
    flattenResults_all_ok prompts.length
      (fun t : Nat × List String => (ovi_generate_batch_seq env t.2).1),
    List.nil_append]
  have hflat : ((gpuTasks prompts env.num_gpus).map (fun t : Nat × List String =>
      (ovi_generate_batch_seq env t.2).1)).flatten
      = prompts.map (fun p => (ovi_generate_video env p).1) := by
    have h1 : (fun t : Nat × List String => (ovi_generate_batch_seq env t.2).1)
        = fun t : Nat × List String =>
            t.2.map (fun p => (ovi_generate_video env p).1) := by
      funext t
      exact ovi_generate_batch_seq_fst env t.2
    rw [h1, gpuTasks, filter_nonempty_flatten _ _ (by simp)]
    have h2 : (List.range env.num_gpus).zip (gpuGroups prompts env.num_gpus)
        = (List.range (gpuGroups prompts env.num_gpus).length).zip
            (gpuGroups prompts env.num_gpus) := by
      rw [gpuGroups_length]
    have h3 : ((List.range env.num_gpus).zip
        (gpuGroups prompts env.num_gpus)).map (fun gi : Nat × List String =>
          gi.2.map (fun p => (ovi_generate_video env p).1))
        = (((List.range env.num_gpus).zip
            (gpuGroups prompts env.num_gpus)).map Prod.snd).map
              (List.map (fun p => (ovi_generate_video env p).1)) := by
      rw [List.map_map]; rfl
    rw [h3, h2, map_snd_zip_range, ← List.map_flatten,
      gpuGroups_join _ _ hU]
  rw [hflat, ← List.length_map prompts (fun p => (ovi_generate_video env p).1),
    List.take_length]

/-- Claim C2: with unit count U > 1 and batch size N, the batch is split
into U contiguous groups: group `i` has `N / U + (1 if i < N mod U else 0)`
items (so `⌊N/U⌋` or `⌈N/U⌉`, the first `N mod U` groups the larger
count), the groups concatenate back to the original prompt list, group `i`
is assigned to GPU `i`, and — when no unit task faults — the flattening of
the per-unit results in unit order is the per-prompt result list in
original request order. -/
theorem C2_partitioning (env : OviEnv) (prompts : List String)
    (hg : 1 < env.num_gpus) (hav : env.available = true) :
    (gpuGroups prompts env.num_gpus).length = env.num_gpus ∧
    ((gpuGroups prompts env.num_gpus).map List.length
      = (List.range env.num_gpus).map (fun i =>
          prompts.length / env.num_gpus
            + if i < prompts.length % env.num_gpus then 1 else 0)) ∧
    (gpuGroups prompts env.num_gpus).flatten = prompts ∧
    (∀ i, i < env.num_gpus →
      ((List.range env.num_gpus).zip (gpuGroups prompts env.num_gpus)).getD i (0, [])
        = (i, (gpuGroups prompts env.num_gpus).getD i [])) ∧
    (∀ taskFault : Nat → Bool, (∀ g, taskFault g = false) →
      generate_videos_batch env taskFault prompts
        = prompts.map (fun p => (ovi_generate_video env p).1)) := by
  have hU : 0 < env.num_gpus := by omega
  refine ⟨gpuGroups_length prompts env.num_gpus,
    gpuGroups_lengths prompts env.num_gpus hU,
    gpuGroups_join prompts env.num_gpus hU, ?_, ?_⟩
  · intro i hi
    rw [zip_getD_pair _ _ i (by simpa using hi)
        (by rw [gpuGroups_length]; exact hi),
      range_getD _ _ hi]
  · intro taskFault hf
    exact batch_no_fault env taskFault prompts hav hg hf

/-- Concrete environment for witnesses: the service is available, the
`ovi` package imports, generation returns the prompt itself as the video
path, files read back their own path, base64 is the identity. -/
def envW : OviEnv :=
  { available := true
    pkgImport := true
    pkgGenerate := fun p => Except.ok p
    readFile := fun s => Except.ok s
    b64encode := fun s => s
    cliRun := fun _ => Except.ok (0, "")
    pathExists := fun _ => true
    num_gpus := 2 }

/-- Witness for C2 at a concrete input: 2 GPUs, 3 prompts, no faults. -/
theorem C2_partitioning_witness :
    (gpuGroups ["a", "b", "c"] envW.num_gpus).length = envW.num_gpus ∧
    ((gpuGroups ["a", "b", "c"] envW.num_gpus).map List.length
      = (List.range envW.num_gpus).map (fun i =>
          (["a", "b", "c"] : List String).length / envW.num_gpus
            + if i < (["a", "b", "c"] : List String).length % envW.num_gpus
              then 1 else 0)) ∧
    (gpuGroups ["a", "b", "c"] envW.num_gpus).flatten = ["a", "b", "c"] ∧
    (∀ i, i < envW.num_gpus →
      ((List.range envW.num_gpus).zip
        (gpuGroups ["a", "b", "c"] envW.num_gpus)).getD i (0, [])
        = (i, (gpuGroups ["a", "b", "c"] envW.num_gpus).getD i [])) ∧
    (∀ taskFault : Nat → Bool, (∀ g, taskFault g = false) →
      generate_videos_batch envW taskFault ["a", "b", "c"]
        = (["a", "b", "c"] : List String).map
            (fun p => (ovi_generate_video envW p).1)) :=
  C2_partitioning envW ["a", "b", "c"] (by decide) (by decide)

/-- Claim C9: with unit count 0 or 1, `generate_videos_batch` is the
strictly sequential path: its output is the per-GPU sequential run over
the whole prompt list, the i-th output is `generate_video` of the i-th
prompt, and the backend-call trace is the concatenation of the per-prompt
call traces in input order (one `generate_video` call after another). -/
theorem C9_sequential (env : OviEnv) (taskFault : Nat → Bool)
    (prompts : List String) (hU : env.num_gpus ≤ 1)
    (hav : env.available = true) :
    generate_videos_batch env taskFault prompts
        = (ovi_generate_batch_seq env prompts).1 ∧
    (ovi_generate_batch_seq env prompts).1
        = prompts.map (fun p => (ovi_generate_video env p).1) ∧
    (ovi_generate_batch_seq env prompts).2
        = (prompts.map (fun p => (ovi_generate_video env p).2)).flatten := by
  refine ⟨?_, ovi_generate_batch_seq_fst env prompts,
    ovi_generate_batch_seq_snd env prompts⟩
  unfold generate_videos_batch
  rw [hav, if_neg (by simp : ¬(true = false)),
    if_neg (by omega : ¬(1 < env.num_gpus))]

/-- The witness environment with a single GPU. -/
def envW1 : OviEnv := { envW with num_gpus := 1 }

/-- Witness for C9 at a concrete input: one GPU, two prompts. -/
theorem C9_sequential_witness :
    generate_videos_batch envW1 (fun _ => false) ["a", "b"]
        = (ovi_generate_batch_seq envW1 ["a", "b"]).1 ∧
    (ovi_generate_batch_seq envW1 ["a", "b"]).1
        = (["a", "b"] : List String).map
            (fun p => (ovi_generate_video envW1 p).1) ∧
    (ovi_generate_batch_seq envW1 ["a", "b"]).2
        = ((["a", "b"] : List String).map
            (fun p => (ovi_generate_video envW1 p).2)).flatten :=
  C9_sequential envW1 (fun _ => false) ["a", "b"] (by decide) (by decide)

/-- Concrete fault pattern for C3: GPU 0's task faults as a whole, GPU 1's
task runs normally. -/
def faultGpu0 : Nat → Bool := fun g => g == 0

/-- Claim C3 fails on the code (code bug): with 2 GPUs and 4 prompts,
GPU 0 handles prompts 0-1 and GPU 1 handles prompts 2-3.  When GPU 0's
task alone faults, the flatten loop pads with `[None] * len(prompts)` —
the FULL batch length, not the faulted group's size — and the final
truncation `[:len(prompts)]` then cuts GPU 1's results off entirely: the
batch comes back all-`None`, although GPU 1 produced real results that
the spec requires to appear unchanged at indices 2 and 3. -/
theorem C3_unit_fault_misaligned :
    generate_videos_batch envW faultGpu0 ["a", "b", "c", "d"]
      = [none, none, none, none] ∧
    (ovi_generate_batch_seq envW ["c", "d"]).1
      = [some { video_base64 := some "c", video_url := none,
                provider := "ovi" },
         some { video_base64 := some "d", video_url := none,
                provider := "ovi" }] ∧
    (ovi_generate_video envW "c").1 ≠ none ∧
    (ovi_generate_video envW "d").1 ≠ none := by
  refine ⟨?_, by decide, by decide, by decide⟩
  decide

/-! ### Claim theorems for the GPU targeting context -/

theorem captured_invariant (g : Nat) :
    ∀ (ws : List GpuStep) (st : SchedState), GpuStep.capture g ∉ ws →
      (execSteps ws st).captured g = st.captured g := by
  intro ws
  induction ws with
  | nil => intro st _; rfl
  | cons s ws ih =>
    intro st hmem
    have hs : s ≠ GpuStep.capture g :=
      fun h => hmem (h ▸ List.mem_cons_self s ws)
    have hws : GpuStep.capture g ∉ ws :=
      fun h => hmem (List.mem_cons_of_mem s h)
    have hstep : execSteps (s :: ws) st = execSteps ws (execStep st s) := rfl
    rw [hstep, ih (execStep st s) hws]
    cases s with
    | capture g2 =>
      have hg : ¬(g = g2) := fun h => hs (by rw [h])
      simp [execStep, hg]
    | set g2 => rfl
    | observe g2 => rfl
    | restore g2 => rfl

/-- Claim C4: for every run of `_generate_on_gpu` for GPU `g` — whatever
the work does to the shared variable and however it exits (the executed
work steps `ws` may be cut short by an exception; the `finally` restore
always runs) — the ambient `CUDA_VISIBLE_DEVICES` after the call equals
its value before the call, including absence (`none`).  The only
assumption is that the work does not re-run this task's own capture. -/
theorem C4_env_restored (g : Nat) (ws : List GpuStep) (st : SchedState)
    (h : GpuStep.capture g ∉ ws) :
    (execSteps (GpuStep.capture g :: GpuStep.set g ::
      (ws ++ [GpuStep.restore g])) st).shared = st.shared := by
  have h2 : execSteps (GpuStep.capture g :: GpuStep.set g ::
      (ws ++ [GpuStep.restore g])) st
      = execStep (execSteps ws
          (execStep (execStep st (GpuStep.capture g)) (GpuStep.set g)))
          (GpuStep.restore g) := by
    simp [execSteps, List.foldl_append]
  rw [h2]
  show (execSteps ws
      (execStep (execStep st (GpuStep.capture g)) (GpuStep.set g))).captured g
    = st.shared
  rw [captured_invariant g ws _ h]
  show (if g = g then st.shared else st.captured g) = st.shared
  rw [if_pos rfl]

/-- Witness for C4: GPU 0's task with a concurrent `set 1` happening
during its work; the variable is restored to its prior (absent) value. -/
theorem C4_env_restored_witness :
    GpuStep.capture 0 ∉ [GpuStep.set 1] ∧
    (execSteps (GpuStep.capture 0 :: GpuStep.set 0 ::
      ([GpuStep.set 1] ++ [GpuStep.restore 0])) initState).shared = none :=
  ⟨by decide, C4_env_restored 0 [GpuStep.set 1] initState (by decide)⟩

/-- An interleaving the asyncio loop can produce for the unit tasks of
GPUs 0 and 1: both tasks capture and set the shared variable before either
one's work runs. -/
def badTrace : List GpuStep :=
  [GpuStep.capture 0, GpuStep.set 0, GpuStep.capture 1, GpuStep.set 1,
   GpuStep.observe 0, GpuStep.observe 1, GpuStep.restore 1, GpuStep.restore 0]

/-- Claim C5 fails on the code (code bug): the targeting mechanism IS a
single process-wide variable (`os.environ["CUDA_VISIBLE_DEVICES"]`)
mutated by concurrently executing unit tasks.  In the valid interleaving
`badTrace` of the two unit tasks' step sequences, GPU 0's work observes
"1" — GPU 1's targeting value — instead of its own index "0". -/
theorem C5_shared_env_race :
    IsMerge (unitProgram 0) (unitProgram 1) badTrace ∧
    (execSteps badTrace initState).observed 0 = some "1" ∧
    (execSteps badTrace initState).observed 0 ≠ some (toString 0) :=
  ⟨IsMerge.left (IsMerge.left (IsMerge.right (IsMerge.right
    (IsMerge.left (IsMerge.right (IsMerge.right (IsMerge.left
      IsMerge.nil))))))),
   by decide, by decide⟩

/-! ### Claim theorems for the polling engine -/

theorem poll_trace_shape (rsp : Nat → PollResponse) :
    ∀ (fuel retries : Nat), ∃ k, k ≤ fuel ∧
      poll_trace_aux rsp retries fuel = (List.replicate k wqBlock).flatten := by
  intro fuel
  induction fuel with
  | zero => intro retries; exact ⟨0, Nat.le_refl 0, rfl⟩
  | succ n ih =>
    intro retries
    cases hr : rsp retries with
    | netError =>
      obtain ⟨k, hk, he⟩ := ih (retries + 1)
      refine ⟨k + 1, by omega, ?_⟩
      simp [poll_trace_aux, hr, he, wqBlock, List.replicate_succ]
    | httpError =>
      obtain ⟨k, hk, he⟩ := ih (retries + 1)
      refine ⟨k + 1, by omega, ?_⟩
      simp [poll_trace_aux, hr, he, wqBlock, List.replicate_succ]
    | ok done videos =>
      cases done with
      | false =>
        obtain ⟨k, hk, he⟩ := ih (retries + 1)
        refine ⟨k + 1, by omega, ?_⟩
        simp [poll_trace_aux, hr, he, wqBlock, List.replicate_succ]
      | true =>
        refine ⟨1, by omega, ?_⟩
        simp [poll_trace_aux, hr, wqBlock]

theorem poll_timeout (key : String) (rsp : Nat → PollResponse) :
    ∀ (fuel retries : Nat),
      (∀ i, retries ≤ i → i < retries + fuel → pollTerminal (rsp i) = false) →
      poll_aux key rsp retries fuel = none := by
  intro fuel
  induction fuel with
  | zero => intro retries _; rfl
  | succ n ih =>
    intro retries h
    have h0 : pollTerminal (rsp retries) = false :=
      h retries (Nat.le_refl retries) (by omega)
    cases hr : rsp retries with
    | netError =>
      simp only [poll_aux, hr]
      exact ih (retries + 1) (fun i h1 h2 => h i (by omega) (by omega))
    | httpError =>
      simp only [poll_aux, hr]
      exact ih (retries + 1) (fun i h1 h2 => h i (by omega) (by omega))
    | ok done videos =>
      cases done with
      | false =>
        simp only [poll_aux, hr]
        exact ih (retries + 1) (fun i h1 h2 => h i (by omega) (by omega))
      | true => rw [hr] at h0; simp [pollTerminal] at h0

/-- Claim C6: the polling loop performs at most `max_retries` status
queries, each preceded by the fixed-interval wait (the event trace is `k ≤
max_retries` wait-query blocks), and when no query within the budget
reports the operation done, the loop terminates with `none` (timeout). -/
theorem C6_poll_budget (key : String) (rsp : Nat → PollResponse)
    (max_retries : Nat) :
    (∃ k, k ≤ max_retries ∧
      poll_trace_aux rsp 0 max_retries = (List.replicate k wqBlock).flatten) ∧
    ((∀ i, i < max_retries → pollTerminal (rsp i) = false) →
      poll_for_video_http key rsp max_retries = none) := by
  constructor
  · exact poll_trace_shape rsp max_retries 0
  · intro h
    exact poll_timeout key rsp max_retries 0 (fun i _ h2 => h i (by omega))

/-- Witness for C6: a status query that always fails at the network level;
with budget 3 the trace is at most 3 wait-query blocks and the result is
a timeout `none`. -/
theorem C6_poll_budget_witness :
    (∃ k, k ≤ 3 ∧ poll_trace_aux (fun _ => PollResponse.netError) 0 3
      = (List.replicate k wqBlock).flatten) ∧
    poll_for_video_http "k" (fun _ => PollResponse.netError) 3 = none :=
  ⟨(C6_poll_budget "k" (fun _ => PollResponse.netError) 3).1,
   (C6_poll_budget "k" (fun _ => PollResponse.netError) 3).2
     (fun _ _ => rfl)⟩

/-- Claim C7: each polling step follows the state-machine rule — a failed
query (network error or non-success HTTP status) or a not-yet-done report
increments the attempt counter and continues while budget remains; a done
report with an extractable artifact uri terminates with that uri (plus the
appended key); a done report without an artifact terminates with `none`
and is not retried. -/
theorem C7_poll_transitions (key : String) (rsp : Nat → PollResponse)
    (retries fuel : Nat) :
    (rsp retries = PollResponse.netError →
      poll_aux key rsp retries (fuel + 1)
        = poll_aux key rsp (retries + 1) fuel) ∧
    (rsp retries = PollResponse.httpError →
      poll_aux key rsp retries (fuel + 1)
        = poll_aux key rsp (retries + 1) fuel) ∧
    (∀ videos, rsp retries = PollResponse.ok false videos →
      poll_aux key rsp retries (fuel + 1)
        = poll_aux key rsp (retries + 1) fuel) ∧
    (∀ videos uri, rsp retries = PollResponse.ok true videos →
      extractUri videos = some uri →
      poll_aux key rsp retries (fuel + 1) = some (uri ++ "&key=" ++ key)) ∧
    (∀ videos, rsp retries = PollResponse.ok true videos →
      extractUri videos = none →
      poll_aux key rsp retries (fuel + 1) = none) := by
  refine ⟨?_, ?_, ?_, ?_, ?_⟩
  · intro h; simp [poll_aux, h]
  · intro h; simp [poll_aux, h]
  · intro videos h; simp [poll_aux, h]
  · intro videos uri h he; simp [poll_aux, h, he]
  · intro videos h he; simp [poll_aux, h, he]

/-- Status-query oracle for the C7 witness: the first query fails at the
network level, every later query reports done with an artifact. -/
def rspW : Nat → PollResponse :=
  fun i => if i == 0 then PollResponse.netError
    else PollResponse.ok true [some "u"]

/-- Witness for C7: the first (failed) query retries, the second (done)
query terminates with the uri plus appended key. -/
theorem C7_poll_transitions_witness :
    poll_aux "k" rspW 0 2 = poll_aux "k" rspW 1 1 ∧
    poll_aux "k" rspW 1 1 = some ("u" ++ "&key=" ++ "k") :=
  ⟨(C7_poll_transitions "k" rspW 0 1).1 rfl,
   (C7_poll_transitions "k" rspW 1 0).2.2.2.1 [some "u"] "u" rfl rfl⟩

/-! ### Claim theorems for the provider error boundary -/

/-- Claim C8: for both providers, `generate_video` never lets an internal
fault escape: the embedding is a total function into an optional result,
and every fault class — unavailability, package-generation exception,
unreadable artifact file, subprocess exception, non-zero exit, missing
output file, submission exception, HTTP error, missing operation name,
polling failure — produces the `none` (Failure) result.  An unavailable
provider yields `none` with an empty backend-call trace, i.e. without
attempting the job. -/
theorem C8_no_escape (env : OviEnv) (genv : GeminiEnv) (prompt : String) :
    (env.available = false → ovi_generate_video env prompt = (none, [])) ∧
    (env.pkgImport = true → env.pkgGenerate prompt = Except.error () →
      (ovi_generate_video env prompt).1 = none) ∧
    (∀ video_path, env.pkgImport = true →
      env.pkgGenerate prompt = Except.ok video_path →
      env.readFile video_path = Except.error () →
      (ovi_generate_video env prompt).1 = none) ∧
    (env.pkgImport = false → env.cliRun prompt = Except.error () →
      (ovi_generate_video env prompt).1 = none) ∧
    (∀ rc out, env.pkgImport = false →
      env.cliRun prompt = Except.ok (rc, out) → rc ≠ 0 →
      (ovi_generate_video env prompt).1 = none) ∧
    (∀ out, env.pkgImport = false → env.cliRun prompt = Except.ok (0, out) →
      env.pathExists out.trim = false →
      (ovi_generate_video env prompt).1 = none) ∧
    (∀ out, env.pkgImport = false → env.cliRun prompt = Except.ok (0, out) →
      env.pathExists out.trim = true →
      env.readFile out.trim = Except.error () →
      (ovi_generate_video env prompt).1 = none) ∧
    (genv.api_key = none → gemini_generate_video genv prompt = (none, [])) ∧
    (genv.postResponse prompt = Except.error () →
      (gemini_generate_video genv prompt).1 = none) ∧
    (∀ opname, genv.postResponse prompt = Except.ok (false, opname) →
      (gemini_generate_video genv prompt).1 = none) ∧
    (genv.postResponse prompt = Except.ok (true, none) →
      (gemini_generate_video genv prompt).1 = none) ∧
    (∀ key op, genv.api_key = some key →
      genv.postResponse prompt = Except.ok (true, some op) →
      poll_for_video_http key genv.pollResponses 30 = none →
      (gemini_generate_video genv prompt).1 = none) := by
  refine ⟨?_, ?_, ?_, ?_, ?_, ?_, ?_, ?_, ?_, ?_, ?_, ?_⟩
  · intro hav; simp [ovi_generate_video, hav]
  · intro hi he
    cases hav : env.available with
    | false => simp [ovi_generate_video, hav]
    | true => simp [ovi_generate_video, hav, hi, he]
  · intro video_path hi hg he
    cases hav : env.available with
    | false => simp [ovi_generate_video, hav]
    | true => simp [ovi_generate_video, hav, hi, hg, he]
  · intro hi he
    cases hav : env.available with
    | false => simp [ovi_generate_video, hav]
    | true => simp [ovi_generate_video, hav, hi, he]
  · intro rc out hi hc hrc
    cases hav : env.available with
    | false => simp [ovi_generate_video, hav]
    | true => simp [ovi_generate_video, hav, hi, hc, hrc]
  · intro out hi hc hp
    cases hav : env.available with
    | false => simp [ovi_generate_video, hav]
    | true => simp [ovi_generate_video, hav, hi, hc, hp]
  · intro out hi hc hp he
    cases hav : env.available with
    | false => simp [ovi_generate_video, hav]
    | true => simp [ovi_generate_video, hav, hi, hc, hp, he]
  · intro hk; simp [gemini_generate_video, hk]
  · intro hp
    cases hk : genv.api_key with
    | none => simp [gemini_generate_video, hk]
    | some key => simp [gemini_generate_video, hk, hp]
  · intro opname hp
    cases hk : genv.api_key with
    | none => simp [gemini_generate_video, hk]
    | some key => simp [gemini_generate_video, hk, hp]
  · intro hp
    cases hk : genv.api_key with
    | none => simp [gemini_generate_video, hk]
    | some key => simp [gemini_generate_video, hk, hp]
  · intro key op hk hp hpoll
    simp [gemini_generate_video, hk, hp, hpoll]

/-- Fault environments for the C8 witness: each disables exactly one
stage of the pipeline. -/
def envUn : OviEnv := { envW with available := false }

def envPkgFail : OviEnv := { envW with pkgGenerate := fun _ => Except.error () }

def envReadFail : OviEnv := { envW with readFile := fun _ => Except.error () }

def envCli : OviEnv := { envW with pkgImport := false }

def envCliRunFail : OviEnv := { envCli with cliRun := fun _ => Except.error () }

def envCliRc : OviEnv := { envCli with cliRun := fun _ => Except.ok (1, "") }

def envCliNoPath : OviEnv := { envCli with pathExists := fun _ => false }

def envCliReadFail : OviEnv := { envCli with readFile := fun _ => Except.error () }

/-- Healthy Gemini environment: key present, submission accepted, first
poll reports done with an artifact uri. -/
def genvW : GeminiEnv :=
  { api_key := some "k"
    postResponse := fun _ => Except.ok (true, some "op")
    pollResponses := fun _ => PollResponse.ok true [some "u"] }

def genvUn : GeminiEnv := { genvW with api_key := none }

def genvPostErr : GeminiEnv :=
  { genvW with postResponse := fun _ => Except.error () }

def genvPostBad : GeminiEnv :=
  { genvW with postResponse := fun _ => Except.ok (false, some "op") }

def genvNoOp : GeminiEnv :=
  { genvW with postResponse := fun _ => Except.ok (true, none) }

def genvPollNone : GeminiEnv :=
  { genvW with pollResponses := fun _ => PollResponse.netError }

/-- Witness for C8: each fault class evaluated at a concrete
environment. -/
theorem C8_no_escape_witness :
    ovi_generate_video envUn "p" = (none, []) ∧
    (ovi_generate_video envPkgFail "p").1 = none ∧
    (ovi_generate_video envReadFail "p").1 = none ∧
    (ovi_generate_video envCliRunFail "p").1 = none ∧
    (ovi_generate_video envCliRc "p").1 = none ∧
    (ovi_generate_video envCliNoPath "p").1 = none ∧
    (ovi_generate_video envCliReadFail "p").1 = none ∧
    gemini_generate_video genvUn "p" = (none, []) ∧
    (gemini_generate_video genvPostErr "p").1 = none ∧
    (gemini_generate_video genvPostBad "p").1 = none ∧
    (gemini_generate_video genvNoOp "p").1 = none ∧
    (gemini_generate_video genvPollNone "p").1 = none :=
  ⟨(C8_no_escape envUn genvW "p").1 rfl,
   (C8_no_escape envPkgFail genvW "p").2.1 rfl rfl,
   (C8_no_escape envReadFail genvW "p").2.2.1 "p" rfl rfl rfl,
   (C8_no_escape envCliRunFail genvW "p").2.2.2.1 rfl rfl,
   (C8_no_escape envCliRc genvW "p").2.2.2.2.1 1 "" rfl rfl (by decide),
   (C8_no_escape envCliNoPath genvW "p").2.2.2.2.2.1 "" rfl rfl rfl,
   (C8_no_escape envCliReadFail genvW "p").2.2.2.2.2.2.1 "" rfl rfl rfl rfl,
   (C8_no_escape envW genvUn "p").2.2.2.2.2.2.2.1 rfl,
   (C8_no_escape envW genvPostErr "p").2.2.2.2.2.2.2.2.1 rfl,
   (C8_no_escape envW genvPostBad "p").2.2.2.2.2.2.2.2.2.1 (some "op") rfl,
   (C8_no_escape envW genvNoOp "p").2.2.2.2.2.2.2.2.2.2.1 rfl,
   (C8_no_escape envW genvPollNone "p").2.2.2.2.2.2.2.2.2.2.2 "k" "op"
     rfl rfl (by decide)⟩

/-! ### Claim theorem for the credential-in-URL behavior -/

theorem poll_success_shape (key : String) (rsp : Nat → PollResponse) :
    ∀ (fuel retries : Nat) (url : String),
      poll_aux key rsp retries fuel = some url →
      ∃ i videos uri, retries ≤ i ∧ i < retries + fuel ∧
        rsp i = PollResponse.ok true videos ∧
        extractUri videos = some uri ∧
        url = uri ++ "&key=" ++ key := by
  intro fuel
  induction fuel with
  | zero => intro retries url h; simp [poll_aux] at h
  | succ n ih =>
    intro retries url h
    cases hr : rsp retries with
    | netError =>
      simp only [poll_aux, hr] at h
      obtain ⟨i, videos, uri, h1, h2, h3, h4, h5⟩ := ih (retries + 1) url h
      exact ⟨i, videos, uri, by omega, by omega, h3, h4, h5⟩
    | httpError =>
      simp only [poll_aux, hr] at h
      obtain ⟨i, videos, uri, h1, h2, h3, h4, h5⟩ := ih (retries + 1) url h
      exact ⟨i, videos, uri, by omega, by omega, h3, h4, h5⟩
    | ok done videos =>
      cases done with
      | false =>
        simp only [poll_aux, hr] at h
        obtain ⟨i, vs, uri, h1, h2, h3, h4, h5⟩ := ih (retries + 1) url h
        exact ⟨i, vs, uri, by omega, by omega, h3, h4, h5⟩
      | true =>
        simp only [poll_aux, hr] at h
        cases he : extractUri videos with
        | none => rw [he] at h; cases h
        | some uri =>
          rw [he] at h
          exact ⟨retries, videos, uri, Nat.le_refl retries, by omega, hr, he,
            (Option.some_inj.mp h).symm⟩

/-- Claim C10: every Success produced by the fallback path carries the
remote video uri with the provider's API key appended as
`&key=<api key>` — the credential is embedded in the returned URL. -/
theorem C10_key_in_url (genv : GeminiEnv) (prompt : String) (r : VideoResult)
    (h : (gemini_generate_video genv prompt).1 = some r) :
    ∃ key i videos uri, genv.api_key = some key ∧
      genv.pollResponses i = PollResponse.ok true videos ∧
      extractUri videos = some uri ∧
      r.video_url = some (uri ++ "&key=" ++ key) ∧
      r.provider = "gemini" := by
  cases hk : genv.api_key with
  | none => rw [gemini_generate_video, hk] at h; cases h
  | some key =>
    rw [gemini_generate_video, hk] at h
    cases hp : genv.postResponse prompt with
    | error e => rw [hp] at h; cases h
    | ok pr =>
      obtain ⟨is_success, opname⟩ := pr
      rw [hp] at h
      cases is_success with
      | false => simp at h
      | true =>
        simp only [Bool.true_eq_false, if_false] at h
        cases opname with
        | none => cases h
        | some op =>
          cases hpoll : poll_for_video_http key genv.pollResponses 30 with
          | none => rw [hpoll] at h; cases h
          | some url =>
            rw [hpoll] at h
            obtain ⟨i, videos, uri, _, _, h3, h4, h5⟩ :=
              poll_success_shape key genv.pollResponses 30 0 url hpoll
            refine ⟨key, i, videos, uri, rfl, h3, h4, ?_, ?_⟩
            · rw [← Option.some_inj.mp h, ← h5]
            · rw [← Option.some_inj.mp h]

/-- Witness for C10 at a concrete input: the healthy Gemini environment
returns a Success whose URL is the remote uri plus `&key=k`. -/
theorem C10_key_in_url_witness :
    ∃ key i videos uri, genvW.api_key = some key ∧
      genvW.pollResponses i = PollResponse.ok true videos ∧
      extractUri videos = some uri ∧
      ({ video_base64 := none, video_url := some ("u" ++ "&key=" ++ "k"),
         provider := "gemini" } : VideoResult).video_url
        = some (uri ++ "&key=" ++ key) ∧
      ({ video_base64 := none, video_url := some ("u" ++ "&key=" ++ "k"),
         provider := "gemini" } : VideoResult).provider = "gemini" :=
  C10_key_in_url genvW "p"
    { video_base64 := none, video_url := some ("u" ++ "&key=" ++ "k"),
      provider := "gemini" } (by decide)
